import Mathlib

/-!
# Verification of `golang-webserver`

A shallow embedding of `webserver.go` (the diagnostic/JSON demo server) and,
for the parts of the repository that the design document describes but whose
source is not present here (the availability monitor: resource prober,
failover flag, monitor loop, home-page route), definitions modelled from the
design document itself.  Theorems below settle the stated properties.

Conventions of the embedding:
* URL paths are lists of characters (`Path`), so that prefix matching can be
  reasoned about by induction; other request fields that the handlers merely
  print are kept as opaque `String`s.
* Go's `net/http` header map canonicalizes keys (`"Content-type"` becomes
  `"Content-Type"`); headers are modelled as an association list with
  `Header().Add` appending and `Header().Set` replacing the canonical key.
* `http.Error(w, msg, code)` sets the plain-text content type and the
  nosniff header, sets the status code, and writes `msg` followed by a
  newline; it does not return from the calling handler.
* `http.ServeMux` with the registered patterns `"/item/"` and `"/generic/"`
  (both subtree patterns): a request whose path plus a trailing slash equals
  a registered pattern, and whose path is not itself registered, receives a
  301 redirect to the pattern; otherwise the longest registered pattern that
  is a prefix of the path wins; with no match the response is
  `404 page not found`.  A `GET` redirect also carries a small HTML body.
* `request.ParseForm`'s outcome is an environment input to `GenericHandler`,
  passed as `Option String` (`some e` is a parse error with text `e`).
-/

namespace GolangWebserver

/-- A URL path (`request.URL.Path`), as the list of its characters. -/
abbrev Path := List Char

/-- Go `strings.HasPrefix` / `ServeMux` subtree matching: `hasPrefix pre s`
is `true` when `pre` is a prefix of `s`. -/
def hasPrefix : Path → Path → Bool
  | [], _ => true
  | _ :: _, [] => false
  | a :: pre, b :: s => a == b && hasPrefix pre s

/-- The registered pattern `"/item/"` (webserver.go line 148). -/
def itemPat : Path := ['/', 'i', 't', 'e', 'm', '/']

/-- The registered pattern `"/generic/"` (webserver.go line 149). -/
def genericPat : Path := ['/', 'g', 'e', 'n', 'e', 'r', 'i', 'c', '/']

/-- Response headers as an association list, in insertion order. -/
abbrev Headers := List (String × String)

/-- Go `Header().Add`: appends a key/value pair. -/
def addHeader (hs : Headers) (k v : String) : Headers := hs ++ [(k, v)]

/-- Go `Header().Set`: drops existing values of the (canonicalized) key and
appends the new one. -/
def setHeader (hs : Headers) (k v : String) : Headers :=
  hs.filter (fun h => !(h.1 == k)) ++ [(k, v)]

/-- The fields of an incoming `*http.Request` that the handlers consume.
`method`, `requestURI`, `formRepr` (the `%v` rendering of `request.Form`)
and `cookiesRepr` (the `%v` rendering of `request.Cookies()`) are only
echoed into the diagnostic text, so they stay opaque strings. -/
structure Request where
  method : String
  requestURI : String
  path : Path
  formRepr : String
  cookiesRepr : String

/-- An HTTP response: status code, headers, and accumulated body. -/
structure Response where
  status : Nat
  headers : Headers
  body : String
deriving DecidableEq

/-- `SetMyCookie` (webserver.go lines 84–88): adds the cookie
`testcookiename=testcookievalue` to the response headers. -/
def SetMyCookie (hs : Headers) : Headers :=
  addHeader hs "Set-Cookie" "testcookiename=testcookievalue"

/-- Go `http.Error(w, msg, code)`: plain-text content type, nosniff,
status `code`, body `msg` plus a newline. -/
def httpError (hs : Headers) (msg : String) (code : Nat) : Response :=
  { status := code
    headers :=
      setHeader (setHeader hs "Content-Type" "text/plain; charset=utf-8")
        "X-Content-Type-Options" "nosniff"
    body := msg ++ "\n" }

/-- The diagnostic text `GenericHandler` writes (webserver.go lines 104–109). -/
def diagnostics (req : Request) : String :=
  "FooWebHandler says ... \n" ++
  (" request.Method     '" ++ req.method ++ "'\n") ++
  (" request.RequestURI '" ++ req.requestURI ++ "'\n") ++
  (" request.URL.Path   '" ++ String.mk req.path ++ "'\n") ++
  (" request.Form       '" ++ req.formRepr ++ "'\n") ++
  (" request.Cookies()  '" ++ req.cookiesRepr ++ "'\n")

/-- `GenericHandler` (webserver.go lines 91–110): sets the cookie and the
plain-text content type; if `ParseForm` failed, writes a 500 error — and
then, with no early return, still writes the diagnostics; otherwise writes
only the diagnostics (implicit status 200). -/
def GenericHandler (req : Request) (parseFormError : Option String) : Response :=
  let hs := setHeader (SetMyCookie []) "Content-Type" "text/plain"
  match parseFormError with
  | some e =>
      let err := httpError hs ("error parsing url " ++ e) 500
      { err with body := err.body ++ diagnostics req }
  | none => { status := 200, headers := hs, body := diagnostics req }

/-- A word character of Go's regexp `\w`: `[0-9A-Za-z_]`. -/
def isWordChar (c : Char) : Bool := c.isAlpha || c.isDigit || c == '_'

/-- The anchored regexp `^/item/(\w+)$` (webserver.go line 123): the path
must be `"/item/"` followed by a nonempty run of word characters, which is
the captured submatch. -/
def itemMatch (p : Path) : Option Path :=
  if hasPrefix itemPat p then
    let rest := p.drop itemPat.length
    if rest = [] ∨ rest.all isWordChar = false then none else some rest
  else none

/-- `json.Marshal` of `map[string]string{"what": "item", "name": w}`
(keys sorted), as printed with a trailing newline (webserver.go line 130). -/
def jsonItem (w : Path) : String :=
  "\x7b\"name\":\"" ++ String.mk w ++ "\",\"what\":\"item\"\x7d\n"

/-- `ItemHandler` (webserver.go lines 113–136): sets the cookie and the JSON
content type; on a regexp match sends the JSON object (implicit status 200),
otherwise `http.Error(w, "404 page not found", 404)`. -/
def ItemHandler (req : Request) : Response :=
  let hs := setHeader (SetMyCookie []) "Content-Type" "application/json"
  match itemMatch req.path with
  | some w => { status := 200, headers := hs, body := jsonItem w }
  | none => httpError hs "404 page not found" 404

/-- The two handlers reachable through the mux. -/
inductive RouteTarget where
  | item
  | generic
deriving DecidableEq

/-- What the `ServeMux` decides for a path. -/
inductive MuxResult where
  | route (t : RouteTarget)
  | redirect (loc : Path)
  | notFound
deriving DecidableEq

/-- `http.ServeMux` dispatch for the two patterns registered in `main`
(webserver.go lines 147–149).  First the trailing-slash redirect rule: if
`path ++ "/"` is a registered pattern and `path` itself is not, redirect.
Otherwise the longest registered pattern that is a prefix of the path wins
(`"/generic/"` is longer than `"/item/"`); no match is a 404. -/
def muxDispatch (p : Path) : MuxResult :=
  if (p ++ ['/'] = itemPat ∨ p ++ ['/'] = genericPat) ∧ ¬(p = itemPat ∨ p = genericPat) then
    .redirect (p ++ ['/'])
  else if hasPrefix genericPat p then .route .generic
  else if hasPrefix itemPat p then .route .item
  else .notFound

/-- Go `http.Redirect` for a `GET` request: `Location` header, HTML content
type, status 301, and a short HTML body. -/
def redirectResponse (loc : Path) : Response :=
  { status := 301
    headers :=
      addHeader (setHeader [] "Location" (String.mk loc))
        "Content-Type" "text/html; charset=utf-8"
    body := "<a href=\"" ++ String.mk loc ++ "\">Moved Permanently</a>.\n\n" }

/-- `http.NotFoundHandler`: `http.Error(w, "404 page not found", 404)` on
fresh headers. -/
def notFoundResponse : Response := httpError [] "404 page not found" 404

/-- The whole server of webserver.go: mux dispatch composed with the two
registered handlers. -/
def serverResponse (req : Request) (parseFormError : Option String) : Response :=
  match muxDispatch req.path with
  | .route .generic => GenericHandler req parseFormError
  | .route .item => ItemHandler req
  | .redirect loc => redirectResponse loc
  | .notFound => notFoundResponse

/-- `main` (webserver.go line 139): `port := 8097`. -/
def port : Nat := 8097

/-- `main` (webserver.go line 140): `portstring := strconv.Itoa(port)`. -/
def portstring : String := toString port

/-- `main` (webserver.go line 154): the address `":" + portstring` passed to
`http.ListenAndServe`. -/
def listenAddress : String := ":" ++ portstring

/-! ## The availability monitor, modelled from the design document

The repository's monitor/prober/home-page code is not among the sources
here; the definitions of this section are modelled from the design
document's own words, and the theorems about them are read against that
model. -/

/-- Modelled from the spec: a `ProbeResult` is `{resource, reachable}`;
the `observedAt` timestamp plays no role in any property and is omitted. -/
structure ProbeResult where
  resource : String
  reachable : Bool

/-- Modelled from the spec: `FailoverState`, the single shared flag
`{active : bool}`. -/
structure FailoverState where
  active : Bool
deriving DecidableEq

/-- Modelled from the spec: the flag is initialized `false` (state
`Primary`) at process start. -/
def initialFailoverState : FailoverState := ⟨false⟩

/-- Modelled from the spec: the aggregate outcome of a completed probe
round — active exactly when ANY resource of the round was unreachable. -/
def aggregateActive (round : List ProbeResult) : Bool :=
  round.any (fun r => !r.reachable)

/-- Modelled from the spec: the Monitor Loop's update after a round
completes; the new value depends only on the round's aggregate outcome. -/
def monitorUpdate (_s : FailoverState) (round : List ProbeResult) : FailoverState :=
  ⟨aggregateActive round⟩

/-- Modelled from the spec: the events that touch the flag — the Monitor
Loop completing a probe round, and the Request Layer reading the flag
(which never mutates it). -/
inductive MonitorEvent where
  | roundComplete (round : List ProbeResult)
  | requestRead

/-- Modelled from the spec: how one event transforms the flag: only a
completed round mutates it. -/
def monitorStep (s : FailoverState) : MonitorEvent → FailoverState
  | .roundComplete round => monitorUpdate s round
  | .requestRead => s

/-- Modelled from the spec: the flag over a whole history of events,
starting from the initial `Primary` state. -/
def runMonitor (events : List MonitorEvent) : FailoverState :=
  events.foldl monitorStep initialFailoverState

/-- Modelled from the spec: the outcome of one resource fetch — success
with a status code, a network error, or a timeout. -/
inductive FetchOutcome where
  | success (status : Nat)
  | networkError
  | timeoutError
deriving DecidableEq

/-- Modelled from the spec: the prober's classification — reachable =
(fetch succeeds AND status code == 200); errors and timeouts are
unreachable, with no distinction of cause. -/
def classifyReachable : FetchOutcome → Bool
  | .success code => code == 200
  | .networkError => false
  | .timeoutError => false

/-- Modelled from the spec: the two configured resource pairs (primary
image/style URL, fallback image/style URL). -/
structure ResourceConfig where
  primaryImage : String
  primaryStyle : String
  fallbackImage : String
  fallbackStyle : String
deriving DecidableEq

/-- Modelled from the spec: `RenderContext = {imageURL, styleURL}`, the
view derived from `FailoverState` at request time. -/
structure RenderContext where
  imageURL : String
  styleURL : String
deriving DecidableEq

/-- Modelled from the spec: the pair the Request Layer picks — the
fallback pair when failover is active, the primary pair otherwise. -/
def renderContext (cfg : ResourceConfig) (fs : FailoverState) : RenderContext :=
  if fs.active then ⟨cfg.fallbackImage, cfg.fallbackStyle⟩
  else ⟨cfg.primaryImage, cfg.primaryStyle⟩

/-- What the home-page server produces for a path. -/
inductive HomeResult where
  | homePage (ctx : RenderContext)
  | notHome
deriving DecidableEq

/-- Modelled from the spec: the home-page server's root route — `GET /`
renders the home page from the current `FailoverState`. -/
def homeServer (cfg : ResourceConfig) (fs : FailoverState) (p : Path) : HomeResult :=
  if p = ['/'] then .homePage (renderContext cfg fs) else .notHome

/-! ## Helper lemmas -/

theorem hasPrefix_iff (pre s : Path) : hasPrefix pre s = true ↔ ∃ t, s = pre ++ t := by
  induction pre generalizing s with
  | nil => exact ⟨fun _ => ⟨s, rfl⟩, fun _ => rfl⟩
  | cons a as ih =>
    cases s with
    | nil =>
      constructor
      · intro h
        simp [hasPrefix] at h
      · rintro ⟨t, ht⟩
        simp at ht
    | cons b bs =>
      rw [show hasPrefix (a :: as) (b :: bs) = (a == b && hasPrefix as bs) from rfl,
        Bool.and_eq_true, beq_iff_eq, ih]
      constructor
      · rintro ⟨rfl, t, rfl⟩
        exact ⟨t, rfl⟩
      · rintro ⟨t, ht⟩
        injection ht with h1 h2
        exact ⟨h1.symm, t, h2⟩

theorem hasPrefix_append (pre t : Path) : hasPrefix pre (pre ++ t) = true :=
  (hasPrefix_iff pre (pre ++ t)).mpr ⟨t, rfl⟩

theorem mem_addHeader (hs : Headers) (k v : String) : (k, v) ∈ addHeader hs k v := by
  simp [addHeader]

theorem mem_setHeader_of_mem {hs : Headers} {p : String × String} {k : String}
    (v : String) (hne : p.1 ≠ k) (h : p ∈ hs) : p ∈ setHeader hs k v := by
  unfold setHeader
  rw [List.mem_append]
  left
  rw [List.mem_filter]
  exact ⟨h, by simp [hne]⟩

theorem muxDispatch_genericPrefix (t : Path) :
    muxDispatch (genericPat ++ t) = .route .generic := by
  unfold muxDispatch
  rw [if_neg, if_pos (hasPrefix_append genericPat t)]
  rintro ⟨h1 | h1, -⟩ <;>
    · have hlen := congrArg List.length h1
      simp [genericPat, itemPat, List.length_append] at hlen

theorem itemMatch_some_iff (p w : Path) :
    itemMatch p = some w ↔ p = itemPat ++ w ∧ w ≠ [] ∧ w.all isWordChar = true := by
  unfold itemMatch
  by_cases h : hasPrefix itemPat p = true
  · rcases (hasPrefix_iff itemPat p).mp h with ⟨t, rfl⟩
    rw [if_pos h]
    simp only [List.drop_left]
    by_cases ht : t = [] ∨ t.all isWordChar = false
    · rw [if_pos ht]
      constructor
      · intro hfalse
        cases hfalse
      · rintro ⟨happ, hw, hall⟩
        have : t = w := List.append_cancel_left happ
        subst this
        rcases ht with h0 | h0
        · exact absurd h0 hw
        · rw [hall] at h0
          cases h0
    · rw [if_neg ht]
      push_neg at ht
      constructor
      · intro hsome
        injection hsome with hw
        subst hw
        exact ⟨rfl, ht.1, eq_true_of_ne_false ht.2⟩
      · rintro ⟨happ, -, -⟩
        have : t = w := List.append_cancel_left happ
        rw [this]
  · rw [if_neg h]
    constructor
    · intro hfalse
      cases hfalse
    · rintro ⟨happ, -, -⟩
      exact absurd (happ ▸ hasPrefix_append itemPat w) h

/-! ## The claims -/

/-- Claim C1: the failover flag starts as Primary (`false`) at process
start; after a completed probe round it is Fallback (`true`) iff at least
one resource of that round was unreachable, and Primary (`false`) iff all
were reachable; a Request Layer read never mutates it — only the Monitor
Loop's round-completion step does. -/
theorem failover_flag_round_invariant :
    initialFailoverState.active = false ∧
    (∀ s round,
      ((monitorStep s (MonitorEvent.roundComplete round)).active = true ↔
        ∃ r ∈ round, r.reachable = false) ∧
      ((monitorStep s (MonitorEvent.roundComplete round)).active = false ↔
        ∀ r ∈ round, r.reachable = true)) ∧
    (∀ s, monitorStep s MonitorEvent.requestRead = s) := by
  refine ⟨rfl, fun s round => ⟨?_, ?_⟩, fun s => rfl⟩
  · simp [monitorStep, monitorUpdate, aggregateActive, List.any_eq_true]
  · simp [monitorStep, monitorUpdate, aggregateActive]

/-- Claim C2 (amended): every request whose URL path has `"/generic/"` as a
prefix is dispatched to `GenericHandler`, which writes the plain-text
diagnostics (with `ParseForm` succeeding, the body is exactly the
diagnostic text); the path `"/generic"` itself is not handled by
`GenericHandler` — the mux answers it with a 301 redirect to
`"/generic/"`. -/
theorem generic_route_serves_diagnostics :
    (∀ req pe, hasPrefix genericPat req.path = true →
      serverResponse req pe = GenericHandler req pe ∧
      (serverResponse req none).body = diagnostics req) ∧
    (∀ req, req.path = ['/', 'g', 'e', 'n', 'e', 'r', 'i', 'c'] →
      serverResponse req none = redirectResponse genericPat) := by
  constructor
  · intro req pe h
    rcases (hasPrefix_iff genericPat req.path).mp h with ⟨t, ht⟩
    have hd : muxDispatch req.path = .route .generic := by
      rw [ht, muxDispatch_genericPrefix]
    constructor
    · simp only [serverResponse, hd]
    · simp only [serverResponse, hd]
      rfl
  · intro req hp
    have hd : muxDispatch req.path = .redirect genericPat := by
      rw [hp]
      decide
    simp only [serverResponse, hd]

/-- The request `GET /generic` (no trailing slash). -/
def genericNoSlashReq : Request :=
  { method := "GET", requestURI := "/generic",
    path := ['/', 'g', 'e', 'n', 'e', 'r', 'i', 'c'],
    formRepr := "map[]", cookiesRepr := "[]" }

/-- Claim C2 counterexample: the request for the exact path `"/generic"` is
not answered with `GenericHandler`'s diagnostic text — the server sends a
301 redirect to `"/generic/"` instead. -/
theorem generic_without_slash_is_redirected :
    (serverResponse genericNoSlashReq none).status = 301 ∧
    (serverResponse genericNoSlashReq none).body ≠ diagnostics genericNoSlashReq ∧
    serverResponse genericNoSlashReq none ≠ GenericHandler genericNoSlashReq none :=
  ⟨rfl, by decide, by decide⟩

/-- The request `GET /generic/page?color=purple`. -/
def genericPageReq : Request :=
  { method := "GET", requestURI := "/generic/page?color=purple",
    path := ['/', 'g', 'e', 'n', 'e', 'r', 'i', 'c', '/', 'p', 'a', 'g', 'e'],
    formRepr := "map[color:[purple]]", cookiesRepr := "[]" }

/-- Claim C2 witness: the concrete request `GET /generic/page` is handled by
`GenericHandler` and its body is the diagnostic text. -/
theorem generic_route_serves_diagnostics_witness :
    serverResponse genericPageReq none = GenericHandler genericPageReq none ∧
    (serverResponse genericPageReq none).body = diagnostics genericPageReq :=
  generic_route_serves_diagnostics.1 genericPageReq none (by decide)

/-- Claim C3: a `GET /` request renders the home page, whose resource URLs
are chosen from the current failover flag — the primary pair when the flag
is `false`, the fallback pair when it is `true`. -/
theorem home_route_renders_by_failover (cfg : ResourceConfig) (fs : FailoverState)
    (p : Path) (h : p = ['/']) :
    homeServer cfg fs p = HomeResult.homePage (renderContext cfg fs) ∧
    (fs.active = false →
      renderContext cfg fs = ⟨cfg.primaryImage, cfg.primaryStyle⟩) ∧
    (fs.active = true →
      renderContext cfg fs = ⟨cfg.fallbackImage, cfg.fallbackStyle⟩) := by
  subst h
  exact ⟨by simp [homeServer], fun hf => by simp [renderContext, hf],
    fun hf => by simp [renderContext, hf]⟩

/-- Claim C3 witness: at a concrete configuration, `GET /` with the flag at
`false` renders the home page with the primary pair. -/
theorem home_route_renders_by_failover_witness :
    homeServer ⟨"pimg", "psty", "fimg", "fsty"⟩ ⟨false⟩ ['/'] =
        HomeResult.homePage (renderContext ⟨"pimg", "psty", "fimg", "fsty"⟩ ⟨false⟩) ∧
      renderContext ⟨"pimg", "psty", "fimg", "fsty"⟩ ⟨false⟩ = ⟨"pimg", "psty"⟩ :=
  ⟨(home_route_renders_by_failover ⟨"pimg", "psty", "fimg", "fsty"⟩ ⟨false⟩ ['/'] rfl).1,
    (home_route_renders_by_failover ⟨"pimg", "psty", "fimg", "fsty"⟩ ⟨false⟩ ['/'] rfl).2.1 rfl⟩

/-- Claim C4: the source fixes `port := 8097` and derives the listen
address from it, so with no other port configured the server listens on
port 8097: the address handed to `ListenAndServe` is `":8097"`. -/
theorem default_port_is_8097 :
    port = 8097 ∧ portstring = "8097" ∧ listenAddress = ":8097" :=
  ⟨rfl, by decide, by decide⟩

/-- Claim C5: the prober classifies a resource reachable exactly when the
fetch succeeded with status code 200; network errors, timeouts and non-200
statuses all classify as unreachable, with no distinction of cause. -/
theorem reachable_iff_fetch_succeeds_with_200 :
    (∀ o, classifyReachable o = true ↔ o = FetchOutcome.success 200) ∧
    classifyReachable FetchOutcome.networkError = false ∧
    classifyReachable FetchOutcome.timeoutError = false ∧
    (∀ c, c ≠ 200 → classifyReachable (FetchOutcome.success c) = false) := by
  refine ⟨?_, rfl, rfl, ?_⟩
  · intro o
    cases o with
    | success c => simp [classifyReachable]
    | networkError => simp [classifyReachable]
    | timeoutError => simp [classifyReachable]
  · intro c hc
    simp [classifyReachable, hc]

/-- Claim C7: a path of the form `"/item/"` followed by a nonempty run of
word characters gets status 200 and the JSON object (with its two fields,
keys in `json.Marshal`'s sorted order) followed by a newline; any other
path dispatched to `ItemHandler` gets a 404 error whose body is
`"404 page not found"` (plus `http.Error`'s trailing newline), with no JSON
written. -/
theorem item_handler_json_or_404 :
    (∀ req w, req.path = itemPat ++ w → w ≠ [] → w.all isWordChar = true →
      (ItemHandler req).status = 200 ∧
      (ItemHandler req).body =
        "\x7b\"name\":\"" ++ String.mk w ++ "\",\"what\":\"item\"\x7d\n") ∧
    (∀ req, (¬ ∃ w, req.path = itemPat ++ w ∧ w ≠ [] ∧ w.all isWordChar = true) →
      (ItemHandler req).status = 404 ∧
      (ItemHandler req).body = "404 page not found" ++ "\n") := by
  constructor
  · intro req w hp hw hall
    have hm : itemMatch req.path = some w :=
      (itemMatch_some_iff req.path w).mpr ⟨hp, hw, hall⟩
    have hIt : ItemHandler req =
        ⟨200, setHeader (SetMyCookie []) "Content-Type" "application/json", jsonItem w⟩ := by
      unfold ItemHandler
      rw [hm]
    rw [hIt]
    exact ⟨rfl, rfl⟩
  · intro req hne
    have hm : itemMatch req.path = none := by
      cases h : itemMatch req.path with
      | none => rfl
      | some w =>
        rcases (itemMatch_some_iff req.path w).mp h with ⟨hp, hw, hall⟩
        exact absurd ⟨w, hp, hw, hall⟩ hne
    have hIt : ItemHandler req =
        httpError (setHeader (SetMyCookie []) "Content-Type" "application/json")
          "404 page not found" 404 := by
      unfold ItemHandler
      rw [hm]
    rw [hIt]
    exact ⟨rfl, rfl⟩

/-- The request `GET /item/yellow`. -/
def itemYellowReq : Request :=
  { method := "GET", requestURI := "/item/yellow",
    path := ['/', 'i', 't', 'e', 'm', '/', 'y', 'e', 'l', 'l', 'o', 'w'],
    formRepr := "map[]", cookiesRepr := "[]" }

/-- Claim C7 witness: the concrete request `GET /item/yellow` receives the
JSON object naming `yellow`. -/
theorem item_handler_json_or_404_witness :
    (ItemHandler itemYellowReq).status = 200 ∧
    (ItemHandler itemYellowReq).body =
      "\x7b\"name\":\"" ++ String.mk ['y', 'e', 'l', 'l', 'o', 'w'] ++
        "\",\"what\":\"item\"\x7d\n" :=
  item_handler_json_or_404.1 itemYellowReq ['y', 'e', 'l', 'l', 'o', 'w']
    (by decide) (by decide) (by decide)

/-- Claim C8: every response of either registered handler — the JSON
success, `ItemHandler`'s 404 error, the plain diagnostics, and
`GenericHandler`'s parse-error 500 alike — carries the `Set-Cookie` header
`testcookiename=testcookievalue`. -/
theorem every_handler_response_sets_cookie (req : Request) (pe : Option String) :
    ("Set-Cookie", "testcookiename=testcookievalue") ∈ (GenericHandler req pe).headers ∧
    ("Set-Cookie", "testcookiename=testcookievalue") ∈ (ItemHandler req).headers := by
  have base : ∀ ct : String,
      ("Set-Cookie", "testcookiename=testcookievalue") ∈
        setHeader (SetMyCookie []) "Content-Type" ct := by
    intro ct
    exact mem_setHeader_of_mem _ (by decide) (mem_addHeader [] _ _)
  have errh : ∀ (hs : Headers) (msg : String) (code : Nat),
      ("Set-Cookie", "testcookiename=testcookievalue") ∈ hs →
      ("Set-Cookie", "testcookiename=testcookievalue") ∈ (httpError hs msg code).headers := by
    intro hs msg code h
    exact mem_setHeader_of_mem _ (by decide) (mem_setHeader_of_mem _ (by decide) h)
  constructor
  · cases pe with
    | none => exact base "text/plain"
    | some e =>
      exact errh (setHeader (SetMyCookie []) "Content-Type" "text/plain")
        ("error parsing url " ++ e) 500 (base "text/plain")
  · cases h : itemMatch req.path with
    | some w =>
      have hIt : (ItemHandler req).headers =
          setHeader (SetMyCookie []) "Content-Type" "application/json" := by
        unfold ItemHandler
        rw [h]
      rw [hIt]
      exact base "application/json"
    | none =>
      have hIt : ItemHandler req =
          httpError (setHeader (SetMyCookie []) "Content-Type" "application/json")
            "404 page not found" 404 := by
        unfold ItemHandler
        rw [h]
      rw [hIt]
      exact errh (setHeader (SetMyCookie []) "Content-Type" "application/json")
        "404 page not found" 404 (base "application/json")

/-- Claim C9: when `ParseForm` fails, `GenericHandler` writes the 500 error
and then — there being no early return — still appends the full diagnostic
text to the same response; when `ParseForm` succeeds the body is the
diagnostic text alone, with status 200. -/
theorem generic_handler_error_then_diagnostics (req : Request) (e : String) :
    (GenericHandler req (some e)).status = 500 ∧
    (GenericHandler req (some e)).body =
      (("error parsing url " ++ e) ++ "\n") ++ diagnostics req ∧
    (GenericHandler req none).status = 200 ∧
    (GenericHandler req none).body = diagnostics req :=
  ⟨rfl, rfl, rfl, rfl⟩

end GolangWebserver
